import Mathlib

/-!
Shallow embedding of the garm-provider-openstack repository (Go) in Lean 4,
covering the client lifecycle operations (`client/client.go`), the overlay
merge of extra specs (`provider/spec.go`) and the server-to-instance mapper
(`provider/provider.go`).  Remote OpenStack API calls are modelled as an
oracle record (`CloudEnv`); Go errors are modelled as an inductive that keeps
track of `fmt.Errorf("...: %w", err)` wrapping, so that error identity and
`errors.Unwrap` behaviour can be reasoned about.
-/

namespace GarmOS

/-- Model of a Go `error` value as produced by this code base:
`default404` stands for `gophercloud.ErrDefault404`, `mk` for any other
leaf error (identified by its message), and `wrap msg cause` for
`fmt.Errorf(msg ++ ": %w", cause)`. -/
inductive GErr where
  | default404 : GErr
  | mk : String → GErr
  | wrap : String → GErr → GErr
deriving DecidableEq, Repr

/-- Go `errors.Unwrap`: only `%w`-wrapped errors unwrap; everything else
yields `nil` (here `none`). -/
def gUnwrap : GErr → Option GErr
  | .wrap _ cause => some cause
  | _ => none

/-- Model of a Go `interface{}` value as found in the `Addresses` field of a
server record (`map[string]interface{}` after JSON unmarshalling):
strings, lists, string-keyed objects, `nil`, or anything else. -/
inductive GoVal where
  | null : GoVal
  | str : String → GoVal
  | list : List GoVal → GoVal
  | obj : List (String × GoVal) → GoVal
  | other : GoVal

/-- Lookup in a Go `map[string]interface{}` (modelled as an association
list); a missing key yields `none`, standing for the `nil` interface. -/
def goLookup (fields : List (String × GoVal)) (key : String) : Option GoVal :=
  (fields.find? (fun p => p.1 == key)).map (·.2)

/-- Model of `v == nil` on a looked-up `interface{}` value: true when the key was
absent or the stored value was JSON `null`. -/
def goIsNil : Option GoVal → Bool
  | none => true
  | some .null => true
  | some _ => false

/-- Lookup in a Go `map[string]string` with the zero value `""` for a
missing key. -/
def goStrLookup (fields : List (String × String)) (key : String) : String :=
  ((fields.find? (fun p => p.1 == key)).map (·.2)).getD ""

/-! ## UUID parsing (`github.com/google/uuid`, as used by `isUUID`) -/

/-- A hexadecimal digit, as accepted by `uuid.xtob`. -/
def isHexDigit (c : Char) : Bool :=
  ('0' ≤ c && c ≤ '9') || ('a' ≤ c && c ≤ 'f') || ('A' ≤ c && c ≤ 'F')

/-- The canonical 36-character form `xxxxxxxx-xxxx-xxxx-xxxx-xxxxxxxxxxxx`:
dashes at positions 8, 13, 18, 23 and hex digits everywhere else.  When the
list is longer than 36 characters only the first 36 are inspected (this is
what `uuid.Parse` does with the brace form). -/
def canonical36 (l : List Char) : Bool :=
  decide (36 ≤ l.length) &&
  ([8, 13, 18, 23].all (fun i => l.getD i ' ' == '-')) &&
  ((List.range 36).all (fun i =>
    ([8, 13, 18, 23] : List Nat).contains i || isHexDigit (l.getD i ' ')))

/-- Model of `uuid.Parse(s)` succeeding, following the length-based case
split of `github.com/google/uuid`: the canonical 36-character form, the
45-character `urn:uuid:`-prefixed form (case-insensitive), the 38-character
brace form (only characters 1..36 are inspected), and the 32-character
bare-hex form. -/
def uuidParseOk (s : String) : Bool :=
  let l := s.toList
  if l.length == 36 then canonical36 l
  else if l.length == 45 then
    (l.take 9).map Char.toLower == "urn:uuid:".toList && canonical36 (l.drop 9)
  else if l.length == 38 then canonical36 (l.drop 1)
  else if l.length == 32 then l.all isHexDigit
  else false

/-- Model of `isUUID` from `client/client.go`: true exactly when `uuid.Parse`
succeeds. -/
def isUUID (data : String) : Bool := uuidParseOk data

/-- The canonical 36-character UUID form of the claims' wording (one of the
formats `uuid.Parse` accepts). -/
def isCanonicalUUID (s : String) : Bool :=
  s.toList.length == 36 && canonical36 s.toList

theorem canonicalUUID_isUUID (s : String) (h : isCanonicalUUID s = true) :
    isUUID s = true := by
  unfold isCanonicalUUID at h
  simp only [Bool.and_eq_true, beq_iff_eq] at h
  unfold isUUID uuidParseOk
  have hl : s.length = 36 := h.1
  have hc : (s.toList.length == 36) = true := by simp [hl]
  rw [if_pos hc]
  exact h.2

/-! ## Server records and the remote-API oracle -/

/-- Tag names from `client/client.go`. -/
def controllerIDTagName : String := "garm-controller-id"

def poolIDTagName : String := "garm-pool-id"

/-- Model of `client.ServerWithExt`: the composite server record.  `Tags` is a
`*[]string` in Go, hence an `Option`; `Addresses` is a
`map[string]interface{}`; `Metadata` a `map[string]string`.  Fields of the
embedded extension structs that no modelled code reads are omitted. -/
structure ServerWithExt where
  ID : String
  Name : String
  Status : String
  Tags : Option (List String)
  Addresses : List (String × GoVal)
  Metadata : List (String × String)

/-- The zero value `ServerWithExt{}`. -/
def zeroServer : ServerWithExt :=
  { ID := "", Name := "", Status := "", Tags := none, Addresses := [], Metadata := [] }

/-- Model of `servers.CreateOpts`; only `Name` is read by the client code modelled
here. -/
structure CreateOpts where
  Name : String

/-- Model of `bootfromvolume.CreateOptsExt`; the client code only passes it through
to the remote create call, so the block-device payload is not modelled. -/
structure CreateOptsExt where
  createOptsBuilder : CreateOpts

/-- The result of `servers.ForceDelete`: the HTTP status code
(`response.StatusCode`) and the outcome of `response.ExtractErr()`. -/
structure ForceDeleteResponse where
  statusCode : Nat
  extractErr : Option GErr

/-- Oracle for the remote OpenStack API as consumed by `OpenstackClient`.
Each field stands for one gophercloud primitive; `pollGet` is the
`servers.Get` issued on the n-th iteration of a `gophercloud.WaitFor`
poll. -/
structure CloudEnv where
  controllerID : String
  serverCreate : CreateOpts → Except GErr ServerWithExt
  bfvCreate : CreateOptsExt → Except GErr ServerWithExt
  serverGet : String → Except GErr ServerWithExt
  pollGet : String → Nat → Except GErr ServerWithExt
  serversList : String → Except GErr (List ServerWithExt)
  forceDelete : String → ForceDeleteResponse
  stopAct : String → Option GErr
  startAct : String → Option GErr

/-- Observable side calls issued by the client operations: the rollback
`o.DeleteServer(target, wait)` call inside the create functions and the
`startstop.Stop` / `startstop.Start` action calls. -/
inductive Action where
  | deleteSrv (target : String) (wait : Bool)
  | stopSrv (id : String)
  | startSrv (id : String)
deriving DecidableEq, Repr

/-! ## Listing and lookup (`ListServersWithTags`, `ListServersWithNameOrID`,
`GetServer`) -/

/-- Model of `ListServersWithTags`: lists servers filtered by the comma-joined tag
list, wrapping a listing failure. -/
def ListServersWithTags (env : CloudEnv) (tags : List String) :
    Except GErr (List ServerWithExt) :=
  match env.serversList (String.intercalate "," tags) with
  | .error e => .error (.wrap "failed to list servers" e)
  | .ok srvResults => .ok srvResults

/-- Go `strings.HasPrefix`, decided on the underlying character lists. -/
def strStarts (pre s : String) : Bool :=
  pre.data.isPrefixOf s.data

/-- The controller-ID value extracted from a server's tags in
`ListServersWithNameOrID`: the part after the first `=` of the first tag
starting with `garm-controller-id=` (that is what `SplitN(tag, "=", 2)`
yields there), `""` when there is none (or when `Tags` is nil). -/
def controllerIDValueOf (srv : ServerWithExt) : String :=
  match srv.Tags with
  | none => ""
  | some tags =>
    match tags.find? (fun tag => strStarts (controllerIDTagName ++ "=") tag) with
    | none => ""
    | some tag => tag.drop (controllerIDTagName ++ "=").length

/-- Model of `ListServersWithNameOrID`: a UUID is looked up directly and its
controller tag checked; any other string is resolved by listing the
servers tagged with the controller ID and filtering on exact name
equality. -/
def ListServersWithNameOrID (env : CloudEnv) (nameOrId : String) :
    Except GErr (List ServerWithExt) :=
  if isUUID nameOrId then
    match env.serverGet nameOrId with
    | .error e => .error (.wrap "failed to get server" e)
    | .ok srv =>
      if controllerIDValueOf srv ≠ env.controllerID then
        .error (.mk ("server with name or ID " ++ nameOrId ++ " not found"))
      else
        .ok [srv]
  else
    match ListServersWithTags env [controllerIDTagName ++ "=" ++ env.controllerID] with
    | .error e => .error (.wrap "failed to find server by name" e)
    | .ok srvResults => .ok (srvResults.filter (fun result => result.Name == nameOrId))

/-- Model of `GetServer`: resolves a name-or-ID to exactly one server, erroring on
zero or multiple matches. -/
def GetServer (env : CloudEnv) (nameOrId : String) : Except GErr ServerWithExt :=
  match ListServersWithNameOrID env nameOrId with
  | .error e => .error (.wrap "failed to find server" e)
  | .ok results =>
    match results with
    | [] => .error (.mk ("failed to find server with name or id " ++ nameOrId))
    | [r] => .ok r
    | _ :: _ :: _ =>
      .error (.mk ("multiple servers with name or id " ++ nameOrId ++ "; manual intervention required"))

/-! ## Status polling (`waitForStatus` via `gophercloud.WaitFor`) -/

/-- One iteration of the `waitForStatus` predicate plus the bounded retry
loop of `gophercloud.WaitFor`, with the remaining fuel standing for the
remaining seconds of the deadline; `t` counts the poll attempts.  A 404
while waiting for status `DELETED` is the success terminal state. -/
def waitForStatusAux (env : CloudEnv) (id status : String) :
    Nat → Nat → Option GErr
  | _, 0 => some (.mk "A timeout occurred")
  | t, fuel + 1 =>
    match env.pollGet id t with
    | .error err =>
      if err = GErr.default404 ∧ status = "DELETED" then none
      else some (.wrap ("could not find server " ++ id) err)
    | .ok current =>
      if current.Status = status then none
      else if current.Status = "ERROR" then some (.mk "instance in ERROR state")
      else waitForStatusAux env id status (t + 1) fuel

/-- Model of `waitForStatus id status secs`: `none` on success, `some e` on poll
failure, ERROR state, or timeout. -/
def waitForStatus (env : CloudEnv) (id status : String) (secs : Nat) : Option GErr :=
  waitForStatusAux env id status 0 secs

/-! ## Deletion (`deleteServerByID`, `DeleteServer`) -/

/-- Model of `deleteServerByID`: force-deletes one server by ID; a 404 status code
is success; when `waitForDelete` is set, waits for disappearance. -/
def deleteServerByID (env : CloudEnv) (id : String) (waitForDelete : Bool) :
    Option GErr :=
  let response := env.forceDelete id
  if response.statusCode = 404 then none
  else
    match response.extractErr with
    | some e => some e
    | none =>
      if waitForDelete then
        match waitForStatus env id "DELETED" 120 with
        | some e => some (.wrap "failed to delete server" e)
        | none => none
      else none

/-- The per-match loop of `DeleteServer`: a 404 surfacing from the
per-server delete is skipped, any other failure aborts the loop. -/
def deleteServersLoop (env : CloudEnv) : List ServerWithExt → Option GErr
  | [] => none
  | srv :: rest =>
    match deleteServerByID env srv.ID true with
    | some e =>
      if gUnwrap e = some GErr.default404 then deleteServersLoop env rest
      else some (.wrap ("failed to delete server with ID " ++ srv.ID) e)
    | none => deleteServersLoop env rest

/-- Model of `DeleteServer`: resolves the name-or-ID under the controller scope and
deletes every match; a 404 from resolution means already gone and is
success.  (The `waitForDelete` parameter is accepted but the loop always
waits, as in the source.) -/
def DeleteServer (env : CloudEnv) (nameOrID : String) (waitForDelete : Bool) :
    Option GErr :=
  match ListServersWithNameOrID env nameOrID with
  | .error err =>
    if gUnwrap err = some GErr.default404 then none
    else some (.wrap "failed to find server" err)
  | .ok results => deleteServersLoop env results

/-! ## Start / stop (`StopServer`, `StartServer`) -/

/-- Model of `StopServer`: resolve, no-op when already `SHUTOFF`, otherwise issue
the stop action (recorded in the trace). -/
def StopServer (env : CloudEnv) (nameOrID : String) : Option GErr × List Action :=
  match GetServer env nameOrID with
  | .error e => (some (.wrap "failed to get server" e), [])
  | .ok srv =>
    if srv.Status = "SHUTOFF" then (none, [])
    else
      match env.stopAct srv.ID with
      | some e => (some (.wrap "failed to stop server" e), [.stopSrv srv.ID])
      | none => (none, [.stopSrv srv.ID])

/-- Model of `StartServer`: resolve, no-op when already `ACTIVE`, otherwise issue
the start action.  (The failure message matches the source, which reuses
the stop wording.) -/
def StartServer (env : CloudEnv) (nameOrID : String) : Option GErr × List Action :=
  match GetServer env nameOrID with
  | .error e => (some (.wrap "failed to get server" e), [])
  | .ok srv =>
    if srv.Status = "ACTIVE" then (none, [])
    else
      match env.startAct srv.ID with
      | some e => (some (.wrap "failed to stop server" e), [.startSrv srv.ID])
      | none => (none, [.startSrv srv.ID])

/-! ## Creation with rollback (`CreateServerFromImage`,
`CreateServerFromVolume`) -/

/-- The shared body of the two create functions, given the outcome of the
submission call: the pair of named return values `(srv, err)`.  On a
failed submission the extract leaves `srv` at its zero value; on a failed
re-fetch `GetServer` returns the zero value together with the error. -/
def createBodyWith (env : CloudEnv) (submitted : Except GErr ServerWithExt) :
    ServerWithExt × Option GErr :=
  match submitted with
  | .error e => (zeroServer, some (.wrap "failed to create server" e))
  | .ok srv =>
    match waitForStatus env srv.ID "ACTIVE" 120 with
    | some e =>
      (srv, some (.wrap "server did not reach ACTIVE state after 120 seconds" e))
    | none =>
      match GetServer env srv.ID with
      | .error e => (zeroServer, some e)
      | .ok srv1 => (srv1, none)

/-- The body of `CreateServerFromImage` before the deferred rollback
runs. -/
def createFromImageBody (env : CloudEnv) (createOpts : CreateOpts) :
    ServerWithExt × Option GErr :=
  createBodyWith env (env.serverCreate createOpts)

/-- The deferred rollback of the create functions: when the named return
`err` is non-nil, a best-effort `DeleteServer` is attempted — by `srv.ID`
when non-empty, by the requested name otherwise — and its own result is
discarded (`_ =` in the source). -/
def createRollback (body : ServerWithExt × Option GErr) (name : String) :
    List Action :=
  match body.2 with
  | some _ =>
    [Action.deleteSrv (if body.1.ID ≠ "" then body.1.ID else name) true]
  | none => []

/-- Model of `CreateServerFromImage`: the returned `(srv, err)` pair together with
the trace of rollback calls made by the deferred cleanup. -/
def CreateServerFromImage (env : CloudEnv) (createOpts : CreateOpts) :
    (ServerWithExt × Option GErr) × List Action :=
  let body := createFromImageBody env createOpts
  (body, createRollback body createOpts.Name)

/-- The body of `CreateServerFromVolume`, mirroring the image variant but
submitting through the boot-from-volume create call. -/
def createFromVolumeBody (env : CloudEnv) (createOpts : CreateOptsExt) :
    ServerWithExt × Option GErr :=
  createBodyWith env (env.bfvCreate createOpts)

/-- Model of `CreateServerFromVolume`: the fallback delete target is the explicit
`name` argument. -/
def CreateServerFromVolume (env : CloudEnv) (createOpts : CreateOptsExt)
    (name : String) : (ServerWithExt × Option GErr) × List Action :=
  let body := createFromVolumeBody env createOpts
  (body, createRollback body name)

/-! ## Configuration overlay (`provider/spec.go`) -/

/-- Modelled from the spec: `config.IsValidVisibility` is not present under
`src/` (only its test `TestIsValidVisibility` and its caller in
`MergeExtraSpecs` are); the spec fixes the allowed image-visibility set to
`public`, `private`, `shared`, `community`, `all`, every other value being
invalid. -/
def IsValidVisibility (v : String) : Bool :=
  v == "public" || v == "private" || v == "shared" || v == "community" || v == "all"

/-- The fixed allowed set of image-visibility values, as a list. -/
def allowedVisibilities : List String :=
  ["public", "private", "shared", "community", "all"]

theorem isValidVisibility_iff_mem (v : String) :
    IsValidVisibility v = true ↔ v ∈ allowedVisibilities := by
  simp [IsValidVisibility, allowedVisibilities]
  tauto

/-- Model of `params.RunnerApplicationDownload` (tools payload); only identity
matters for the claims, so two representative fields are kept. -/
structure RunnerApplicationDownload where
  DownloadURL : Option String
  Filename : Option String
deriving DecidableEq, Repr

/-- The user-data options of the bootstrap request that the merge and the
user-data composition touch. -/
structure UserDataOptions where
  DisableUpdatesOnBoot : Bool
  ExtraPackages : List String
  EnableBootDebug : Bool
deriving DecidableEq, Repr

/-- Model of `params.BootstrapInstance`, restricted to the fields the modelled code
reads or writes (`Name` for validation and creation, `UserDataOptions` for
the merge). -/
structure BootstrapInstance where
  Name : String
  UserDataOptions : UserDataOptions
deriving DecidableEq, Repr

/-- Model of `extraSpecs` from `provider/spec.go`.  Go pointer fields are `Option`;
Go slices are `Option (List _)` so that a present-but-empty JSON array
(non-nil empty slice) is distinguished from an absent field (nil slice).
The embedded `cloudconfig.CloudConfigSpec` is not consulted by
`MergeExtraSpecs` and is omitted. -/
structure extraSpecs where
  SecurityGroups : Option (List String)
  AllowedImageOwners : Option (List String)
  ImageVisibility : String
  NetworkID : String
  StorageBackend : String
  BootFromVolume : Option Bool
  BootDiskSize : Option Int
  UseConfigDrive : Option Bool
  EnableBootDebug : Option Bool
  DisableUpdates : Option Bool
  ExtraPackages : Option (List String)
deriving DecidableEq, Repr

/-- The empty override document: every field absent. -/
def emptyExtraSpecs : extraSpecs :=
  { SecurityGroups := none, AllowedImageOwners := none, ImageVisibility := "",
    NetworkID := "", StorageBackend := "", BootFromVolume := none,
    BootDiskSize := none, UseConfigDrive := none, EnableBootDebug := none,
    DisableUpdates := none, ExtraPackages := none }

/-- Model of `machineSpec` from `provider/spec.go`. -/
structure machineSpec where
  StorageBackend : String
  SecurityGroups : List String
  AllowedImageOwners : List String
  ImageVisibility : String
  NetworkID : String
  BootFromVolume : Bool
  BootDiskSize : Int
  UseConfigDrive : Bool
  Flavor : String
  Image : String
  DisableUpdates : Bool
  ExtraPackages : List String
  Tools : RunnerApplicationDownload
  Tags : List String
  Properties : List (String × String)
  BootstrapParams : BootstrapInstance
deriving DecidableEq, Repr

/-- Model of `m.BootstrapParams.UserDataOptions.EnableBootDebug = v`, functionally:
the only write into the bootstrap request that the merge performs. -/
def withBootDebug (bp : BootstrapInstance) (v : Bool) : BootstrapInstance :=
  { bp with UserDataOptions := { bp.UserDataOptions with EnableBootDebug := v } }

/-- Merge step `if spec.StorageBackend != ""`. -/
def mergeStorageBackend (spec : extraSpecs) (m : machineSpec) : machineSpec :=
  if spec.StorageBackend ≠ "" then { m with StorageBackend := spec.StorageBackend } else m

/-- Merge step `if spec.BootDiskSize != nil`. -/
def mergeBootDiskSize (spec : extraSpecs) (m : machineSpec) : machineSpec :=
  match spec.BootDiskSize with
  | some v => { m with BootDiskSize := v }
  | none => m

/-- Merge step `if spec.BootFromVolume != nil`. -/
def mergeBootFromVolume (spec : extraSpecs) (m : machineSpec) : machineSpec :=
  match spec.BootFromVolume with
  | some v => { m with BootFromVolume := v }
  | none => m

/-- Merge step `if spec.NetworkID != ""`. -/
def mergeNetworkID (spec : extraSpecs) (m : machineSpec) : machineSpec :=
  if spec.NetworkID ≠ "" then { m with NetworkID := spec.NetworkID } else m

/-- Merge step `if len(spec.SecurityGroups) > 0` (nil and empty slices
both fail the length test). -/
def mergeSecurityGroups (spec : extraSpecs) (m : machineSpec) : machineSpec :=
  match spec.SecurityGroups with
  | some (x :: xs) => { m with SecurityGroups := x :: xs }
  | _ => m

/-- Merge step `if spec.UseConfigDrive != nil`. -/
def mergeUseConfigDrive (spec : extraSpecs) (m : machineSpec) : machineSpec :=
  match spec.UseConfigDrive with
  | some v => { m with UseConfigDrive := v }
  | none => m

/-- Merge step `if spec.AllowedImageOwners != nil` (an empty non-nil
slice passes this test). -/
def mergeAllowedImageOwners (spec : extraSpecs) (m : machineSpec) : machineSpec :=
  match spec.AllowedImageOwners with
  | some l => { m with AllowedImageOwners := l }
  | none => m

/-- Merge step `if spec.EnableBootDebug != nil`, writing into the
bootstrap request's user-data options. -/
def mergeEnableBootDebug (spec : extraSpecs) (m : machineSpec) : machineSpec :=
  match spec.EnableBootDebug with
  | some v => { m with BootstrapParams := withBootDebug m.BootstrapParams v }
  | none => m

/-- Merge step `if spec.DisableUpdates != nil`. -/
def mergeDisableUpdates (spec : extraSpecs) (m : machineSpec) : machineSpec :=
  match spec.DisableUpdates with
  | some v => { m with DisableUpdates := v }
  | none => m

/-- Merge step `if config.IsValidVisibility(spec.ImageVisibility)`: an
invalid (including empty) visibility does not override the default. -/
def mergeImageVisibility (spec : extraSpecs) (m : machineSpec) : machineSpec :=
  if IsValidVisibility spec.ImageVisibility then
    { m with ImageVisibility := spec.ImageVisibility }
  else m

/-- Model of `MergeExtraSpecs` (functional rendering of the in-place mutation):
the override fields are applied in source order. -/
def MergeExtraSpecs (m : machineSpec) (spec : extraSpecs) : machineSpec :=
  mergeImageVisibility spec <| mergeDisableUpdates spec <| mergeEnableBootDebug spec <|
  mergeAllowedImageOwners spec <| mergeUseConfigDrive spec <| mergeSecurityGroups spec <|
  mergeNetworkID spec <| mergeBootFromVolume spec <| mergeBootDiskSize spec <|
  mergeStorageBackend spec m

/-! ## Server-to-instance mapping (`provider/provider.go`) -/

/-- Model of `statusMap` lookup, with the Go map zero value `""` for unlisted
statuses. -/
def statusMapGet (s : String) : String :=
  if s = "ACTIVE" then "running"
  else if s = "SHUTOFF" then "stopped"
  else if s = "BUILD" then "pending_create"
  else if s = "ERROR" then "error"
  else if s = "DELETING" then "pending_delete"
  else ""

/-- Model of `addrTypeMap` lookup (`fixed` → private, `floating` → public, zero
value otherwise). -/
def addrTypeMapGet (s : String) : String :=
  if s = "fixed" then "private"
  else if s = "floating" then "public"
  else ""

/-- Model of `params.Address`: an address string plus its two-valued kind. -/
structure Address where
  address : String
  addrType : String
deriving DecidableEq, Repr

/-- One iteration of the inner address loop of `openstackServerToInstance`:
`none` corresponds to a `continue` (malformed or otherwise-typed entry,
nil or non-string `addr` or `OS-EXT-IPS:type` values). -/
def extractAddr (addr : GoVal) : Option Address :=
  match addr with
  | .obj fields =>
    if goIsNil (goLookup fields "OS-EXT-IPS:type") || goIsNil (goLookup fields "addr")
    then none
    else
      match goLookup fields "addr", goLookup fields "OS-EXT-IPS:type" with
      | some (.str addrAsStr), some (.str addrTypeAsStr) =>
        if addrTypeAsStr ≠ "fixed" ∧ addrTypeAsStr ≠ "floating" then none
        else some { address := addrAsStr, addrType := addrTypeMapGet addrTypeAsStr }
      | _, _ => none
  | _ => none

/-- The addresses contributed by one value of the `Addresses` map: nothing
unless it is a `[]interface{}`. -/
def networkAddrs (v : GoVal) : List Address :=
  match v with
  | .list addrs => addrs.filterMap extractAddr
  | _ => []

/-- The full address walk over the `Addresses` map. -/
def collectAddresses (addresses : List (String × GoVal)) : List Address :=
  addresses.flatMap (fun p => networkAddrs p.2)

/-- Model of `params.ProviderInstance`, restricted to the fields the mapper sets. -/
structure ProviderInstance where
  ProviderID : String
  Name : String
  OSArch : String
  OSType : String
  Status : String
  OSName : String
  OSVersion : String
  Addresses : List Address

/-- Model of `openstackServerToInstance`: translates a raw server record into the
abstract instance record. -/
def openstackServerToInstance (srv : ServerWithExt) : ProviderInstance :=
  { ProviderID := srv.ID
    Name := srv.Name
    OSArch := goStrLookup srv.Metadata "os_arch"
    OSType := goStrLookup srv.Metadata "os_type"
    Status := statusMapGet srv.Status
    OSName := goStrLookup srv.Metadata "os_name"
    OSVersion := goStrLookup srv.Metadata "os_version"
    Addresses := collectAddresses srv.Addresses }

/-! ## Characterization of the merge -/

theorem mergeStorageBackend_eq (spec : extraSpecs) (m : machineSpec) :
    mergeStorageBackend spec m =
      { m with StorageBackend :=
          if spec.StorageBackend ≠ "" then spec.StorageBackend else m.StorageBackend } := by
  unfold mergeStorageBackend; split_ifs <;> rfl

theorem mergeBootDiskSize_eq (spec : extraSpecs) (m : machineSpec) :
    mergeBootDiskSize spec m =
      { m with BootDiskSize := spec.BootDiskSize.getD m.BootDiskSize } := by
  unfold mergeBootDiskSize; cases spec.BootDiskSize <;> rfl

theorem mergeBootFromVolume_eq (spec : extraSpecs) (m : machineSpec) :
    mergeBootFromVolume spec m =
      { m with BootFromVolume := spec.BootFromVolume.getD m.BootFromVolume } := by
  unfold mergeBootFromVolume; cases spec.BootFromVolume <;> rfl

theorem mergeNetworkID_eq (spec : extraSpecs) (m : machineSpec) :
    mergeNetworkID spec m =
      { m with NetworkID :=
          if spec.NetworkID ≠ "" then spec.NetworkID else m.NetworkID } := by
  unfold mergeNetworkID; split_ifs <;> rfl

theorem mergeSecurityGroups_eq (spec : extraSpecs) (m : machineSpec) :
    mergeSecurityGroups spec m =
      { m with SecurityGroups :=
          match spec.SecurityGroups with
          | some (x :: xs) => x :: xs
          | _ => m.SecurityGroups } := by
  unfold mergeSecurityGroups
  rcases spec.SecurityGroups with _ | (_ | ⟨x, xs⟩) <;> rfl

theorem mergeUseConfigDrive_eq (spec : extraSpecs) (m : machineSpec) :
    mergeUseConfigDrive spec m =
      { m with UseConfigDrive := spec.UseConfigDrive.getD m.UseConfigDrive } := by
  unfold mergeUseConfigDrive; cases spec.UseConfigDrive <;> rfl

theorem mergeAllowedImageOwners_eq (spec : extraSpecs) (m : machineSpec) :
    mergeAllowedImageOwners spec m =
      { m with AllowedImageOwners :=
          spec.AllowedImageOwners.getD m.AllowedImageOwners } := by
  unfold mergeAllowedImageOwners; cases spec.AllowedImageOwners <;> rfl

theorem mergeEnableBootDebug_eq (spec : extraSpecs) (m : machineSpec) :
    mergeEnableBootDebug spec m =
      { m with BootstrapParams :=
          (withBootDebug m.BootstrapParams
            (spec.EnableBootDebug.getD
              m.BootstrapParams.UserDataOptions.EnableBootDebug)) } := by
  unfold mergeEnableBootDebug withBootDebug; cases spec.EnableBootDebug <;> rfl

theorem mergeDisableUpdates_eq (spec : extraSpecs) (m : machineSpec) :
    mergeDisableUpdates spec m =
      { m with DisableUpdates := spec.DisableUpdates.getD m.DisableUpdates } := by
  unfold mergeDisableUpdates; cases spec.DisableUpdates <;> rfl

theorem mergeImageVisibility_eq (spec : extraSpecs) (m : machineSpec) :
    mergeImageVisibility spec m =
      { m with ImageVisibility :=
          if IsValidVisibility spec.ImageVisibility then spec.ImageVisibility
          else m.ImageVisibility } := by
  unfold mergeImageVisibility; split_ifs <;> rfl

/-- Field-by-field normal form of `MergeExtraSpecs`. -/
theorem mergeExtraSpecs_eq (m : machineSpec) (spec : extraSpecs) :
    MergeExtraSpecs m spec =
      { m with
        StorageBackend :=
          if spec.StorageBackend ≠ "" then spec.StorageBackend else m.StorageBackend
        BootDiskSize := spec.BootDiskSize.getD m.BootDiskSize
        BootFromVolume := spec.BootFromVolume.getD m.BootFromVolume
        NetworkID := if spec.NetworkID ≠ "" then spec.NetworkID else m.NetworkID
        SecurityGroups :=
          match spec.SecurityGroups with
          | some (x :: xs) => x :: xs
          | _ => m.SecurityGroups
        UseConfigDrive := spec.UseConfigDrive.getD m.UseConfigDrive
        AllowedImageOwners := spec.AllowedImageOwners.getD m.AllowedImageOwners
        BootstrapParams :=
          (withBootDebug m.BootstrapParams
            (spec.EnableBootDebug.getD
              m.BootstrapParams.UserDataOptions.EnableBootDebug))
        DisableUpdates := spec.DisableUpdates.getD m.DisableUpdates
        ImageVisibility :=
          if IsValidVisibility spec.ImageVisibility then spec.ImageVisibility
          else m.ImageVisibility } := by
  rw [MergeExtraSpecs, mergeStorageBackend_eq, mergeBootDiskSize_eq,
    mergeBootFromVolume_eq, mergeNetworkID_eq, mergeSecurityGroups_eq,
    mergeUseConfigDrive_eq, mergeAllowedImageOwners_eq, mergeEnableBootDebug_eq,
    mergeDisableUpdates_eq, mergeImageVisibility_eq]

/-- A concrete bootstrap request used by the scenario inputs. -/
def c4Bootstrap : BootstrapInstance :=
  { Name := "runner-1",
    UserDataOptions :=
      { DisableUpdatesOnBoot := false, ExtraPackages := [], EnableBootDebug := false } }

/-- Defaults for the C4 scenario: `network=N1`, `boot_from_volume=false`. -/
def c4Defaults : machineSpec :=
  { StorageBackend := "", SecurityGroups := [], AllowedImageOwners := [],
    ImageVisibility := "", NetworkID := "N1", BootFromVolume := false,
    BootDiskSize := 50, UseConfigDrive := false, Flavor := "m1.small",
    Image := "ubuntu", DisableUpdates := false, ExtraPackages := [],
    Tools := { DownloadURL := some "https://tools", Filename := some "t.tgz" },
    Tags := ["garm-pool-id=p1", "garm-controller-id=c1"],
    Properties := [], BootstrapParams := c4Bootstrap }

/-- The C4 override document: boot_from_volume true, boot_disk_size 150,
everything else absent. -/
def c4Override : extraSpecs :=
  { emptyExtraSpecs with BootFromVolume := some true, BootDiskSize := some 150 }

/-- C4: in `MergeExtraSpecs`, every optional scalar override
(`boot_from_volume`, `boot_disk_size`, `use_config_drive`,
`enable_boot_debug`, `disable_updates`) that is present in the override
document replaces the default even when set to its zero value, while an
absent field leaves the default untouched; and the scenario with defaults
`network=N1, boot_from_volume=false` overridden by `boot_from_volume=true,
boot_disk_size=150` yields `network=N1, boot_from_volume=true,
boot_disk_size=150`. -/
theorem mergeExtraSpecs_scalar_overrides :
    (∀ (m : machineSpec) (spec : extraSpecs) (b : Bool),
      spec.BootFromVolume = some b → (MergeExtraSpecs m spec).BootFromVolume = b) ∧
    (∀ (m : machineSpec) (spec : extraSpecs), spec.BootFromVolume = none →
      (MergeExtraSpecs m spec).BootFromVolume = m.BootFromVolume) ∧
    (∀ (m : machineSpec) (spec : extraSpecs) (v : Int),
      spec.BootDiskSize = some v → (MergeExtraSpecs m spec).BootDiskSize = v) ∧
    (∀ (m : machineSpec) (spec : extraSpecs), spec.BootDiskSize = none →
      (MergeExtraSpecs m spec).BootDiskSize = m.BootDiskSize) ∧
    (∀ (m : machineSpec) (spec : extraSpecs) (b : Bool),
      spec.UseConfigDrive = some b → (MergeExtraSpecs m spec).UseConfigDrive = b) ∧
    (∀ (m : machineSpec) (spec : extraSpecs), spec.UseConfigDrive = none →
      (MergeExtraSpecs m spec).UseConfigDrive = m.UseConfigDrive) ∧
    (∀ (m : machineSpec) (spec : extraSpecs) (b : Bool),
      spec.EnableBootDebug = some b →
      (MergeExtraSpecs m spec).BootstrapParams.UserDataOptions.EnableBootDebug = b) ∧
    (∀ (m : machineSpec) (spec : extraSpecs), spec.EnableBootDebug = none →
      (MergeExtraSpecs m spec).BootstrapParams.UserDataOptions.EnableBootDebug =
        m.BootstrapParams.UserDataOptions.EnableBootDebug) ∧
    (∀ (m : machineSpec) (spec : extraSpecs) (b : Bool),
      spec.DisableUpdates = some b → (MergeExtraSpecs m spec).DisableUpdates = b) ∧
    (∀ (m : machineSpec) (spec : extraSpecs), spec.DisableUpdates = none →
      (MergeExtraSpecs m spec).DisableUpdates = m.DisableUpdates) ∧
    ((MergeExtraSpecs c4Defaults c4Override).NetworkID = "N1" ∧
      (MergeExtraSpecs c4Defaults c4Override).BootFromVolume = true ∧
      (MergeExtraSpecs c4Defaults c4Override).BootDiskSize = 150) := by
  refine ⟨?_, ?_, ?_, ?_, ?_, ?_, ?_, ?_, ?_, ?_, ?_⟩ <;>
    first
      | (intro m spec b h; simp [mergeExtraSpecs_eq, h, withBootDebug])
      | (intro m spec h; simp [mergeExtraSpecs_eq, h, withBootDebug])
      | (refine ⟨?_, ?_, ?_⟩ <;> rfl)

/-- An override document setting two scalar fields to their zero values
and leaving everything else absent. -/
def c4ZeroOverride : extraSpecs :=
  { emptyExtraSpecs with UseConfigDrive := some false, BootDiskSize := some 0 }

/-- Closed instantiation of `mergeExtraSpecs_scalar_overrides` discharging
its hypotheses at a concrete override document whose present fields are
set to their zero values. -/
theorem mergeExtraSpecs_scalar_overrides_witness :
    (MergeExtraSpecs c4Defaults c4ZeroOverride).UseConfigDrive = false ∧
    (MergeExtraSpecs c4Defaults c4ZeroOverride).BootDiskSize = 0 ∧
    (MergeExtraSpecs c4Defaults c4ZeroOverride).BootFromVolume = c4Defaults.BootFromVolume :=
  ⟨mergeExtraSpecs_scalar_overrides.2.2.2.2.1 c4Defaults _ false rfl,
   mergeExtraSpecs_scalar_overrides.2.2.1 c4Defaults _ 0 rfl,
   mergeExtraSpecs_scalar_overrides.2.1 c4Defaults _ rfl⟩

/-- The C5 counterexample default: a non-empty allowed-image-owners
default list. -/
def c5Defaults : machineSpec :=
  { c4Defaults with AllowedImageOwners := ["owner1"] }

/-- The C5 counterexample override: `allowed_image_owners` present but
empty (a non-nil empty slice, as produced by the JSON document
`allowed_image_owners: []`). -/
def c5Override : extraSpecs :=
  { emptyExtraSpecs with AllowedImageOwners := some [] }

/-- C5 counterexample: an allowed-image-owners override that is present
but an empty list does *not* leave the default inherited — it wipes the
default wholesale, because the source checks `!= nil` for this field
rather than `len > 0`. -/
theorem mergeExtraSpecs_emptyOwners_overrides :
    c5Override.AllowedImageOwners = some [] ∧
    c5Defaults.AllowedImageOwners = ["owner1"] ∧
    (MergeExtraSpecs c5Defaults c5Override).AllowedImageOwners = [] ∧
    (MergeExtraSpecs c5Defaults c5Override).AllowedImageOwners ≠
      c5Defaults.AllowedImageOwners := by
  refine ⟨rfl, rfl, ?_, ?_⟩ <;>
    simp [mergeExtraSpecs_eq, c5Override, c5Defaults, c4Defaults, emptyExtraSpecs]

/-- C5 (amended): the security-groups override replaces the default only
when present and non-empty (absent or empty inherits the default), while
the allowed-image-owners override replaces the default whenever it is
present — including when it is an empty list — and inherits only when
absent. -/
theorem mergeExtraSpecs_list_fields :
    (∀ (m : machineSpec) (spec : extraSpecs),
      spec.SecurityGroups = none ∨ spec.SecurityGroups = some [] →
      (MergeExtraSpecs m spec).SecurityGroups = m.SecurityGroups) ∧
    (∀ (m : machineSpec) (spec : extraSpecs) (x : String) (xs : List String),
      spec.SecurityGroups = some (x :: xs) →
      (MergeExtraSpecs m spec).SecurityGroups = x :: xs) ∧
    (∀ (m : machineSpec) (spec : extraSpecs), spec.AllowedImageOwners = none →
      (MergeExtraSpecs m spec).AllowedImageOwners = m.AllowedImageOwners) ∧
    (∀ (m : machineSpec) (spec : extraSpecs) (l : List String),
      spec.AllowedImageOwners = some l →
      (MergeExtraSpecs m spec).AllowedImageOwners = l) := by
  refine ⟨?_, ?_, ?_, ?_⟩
  · rintro m spec (h | h) <;> simp [mergeExtraSpecs_eq, h]
  · intro m spec x xs h; simp [mergeExtraSpecs_eq, h]
  · intro m spec h; simp [mergeExtraSpecs_eq, h]
  · intro m spec l h; simp [mergeExtraSpecs_eq, h]

/-- Override document with a present-but-empty security-groups list. -/
def sgEmptyOverride : extraSpecs := { emptyExtraSpecs with SecurityGroups := some [] }

/-- Override document with a non-empty security-groups list. -/
def sgOneOverride : extraSpecs := { emptyExtraSpecs with SecurityGroups := some ["sg1"] }

/-- Closed instantiation of `mergeExtraSpecs_list_fields` discharging its
hypotheses at concrete override documents. -/
theorem mergeExtraSpecs_list_fields_witness :
    (MergeExtraSpecs c5Defaults sgEmptyOverride).SecurityGroups = c5Defaults.SecurityGroups ∧
    (MergeExtraSpecs c5Defaults sgOneOverride).SecurityGroups = ["sg1"] ∧
    (MergeExtraSpecs c5Defaults c5Override).AllowedImageOwners = [] :=
  ⟨mergeExtraSpecs_list_fields.1 c5Defaults _ (Or.inr rfl),
   mergeExtraSpecs_list_fields.2.1 c5Defaults _ "sg1" [] rfl,
   mergeExtraSpecs_list_fields.2.2.2 c5Defaults c5Override [] rfl⟩

/-- C6: an image-visibility override outside the fixed allowed set
(including the empty string) leaves the default visibility unchanged and
the merge raises no error (it is a total function); a value inside the
set replaces the default, including when the default itself is empty. -/
theorem mergeExtraSpecs_visibility :
    (∀ (m : machineSpec) (spec : extraSpecs),
      spec.ImageVisibility ∉ allowedVisibilities →
      (MergeExtraSpecs m spec).ImageVisibility = m.ImageVisibility) ∧
    ("" ∉ allowedVisibilities) ∧
    (∀ (m : machineSpec) (spec : extraSpecs),
      spec.ImageVisibility ∈ allowedVisibilities →
      (MergeExtraSpecs m spec).ImageVisibility = spec.ImageVisibility) := by
  refine ⟨?_, by decide, ?_⟩
  · intro m spec h
    have hv : IsValidVisibility spec.ImageVisibility = false := by
      rcases hb : IsValidVisibility spec.ImageVisibility with _ | _
      · rfl
      · exact absurd ((isValidVisibility_iff_mem _).mp hb) h
    simp [mergeExtraSpecs_eq, hv]
  · intro m spec h
    simp [mergeExtraSpecs_eq, (isValidVisibility_iff_mem _).mpr h]

/-- Override document with an unrecognized image-visibility string. -/
def visBogusOverride : extraSpecs := { emptyExtraSpecs with ImageVisibility := "bogus" }

/-- Override document with a valid image-visibility string. -/
def visPublicOverride : extraSpecs := { emptyExtraSpecs with ImageVisibility := "public" }

/-- Closed instantiation of `mergeExtraSpecs_visibility`: an invalid value
and the empty string are ignored, a valid value overrides an empty
default. -/
theorem mergeExtraSpecs_visibility_witness :
    (MergeExtraSpecs c4Defaults visBogusOverride).ImageVisibility = c4Defaults.ImageVisibility ∧
    (MergeExtraSpecs c4Defaults emptyExtraSpecs).ImageVisibility = c4Defaults.ImageVisibility ∧
    (MergeExtraSpecs c4Defaults visPublicOverride).ImageVisibility = "public" :=
  ⟨mergeExtraSpecs_visibility.1 c4Defaults _ (by decide),
   mergeExtraSpecs_visibility.1 c4Defaults _ (by decide),
   mergeExtraSpecs_visibility.2.2 c4Defaults _ (by decide)⟩

/-- C10: the merge only touches the overridable fields — `Flavor`,
`Image`, `Tools`, `Tags`, `Properties`, `ExtraPackages` and the bootstrap
request's `Name` (indeed everything in the bootstrap request except the
boot-debug user-data option) are left unchanged by `MergeExtraSpecs`. -/
theorem mergeExtraSpecs_frame (m : machineSpec) (spec : extraSpecs) :
    (MergeExtraSpecs m spec).Flavor = m.Flavor ∧
    (MergeExtraSpecs m spec).Image = m.Image ∧
    (MergeExtraSpecs m spec).Tools = m.Tools ∧
    (MergeExtraSpecs m spec).Tags = m.Tags ∧
    (MergeExtraSpecs m spec).Properties = m.Properties ∧
    (MergeExtraSpecs m spec).ExtraPackages = m.ExtraPackages ∧
    (MergeExtraSpecs m spec).BootstrapParams.Name = m.BootstrapParams.Name ∧
    (MergeExtraSpecs m spec).BootstrapParams.UserDataOptions.DisableUpdatesOnBoot =
      m.BootstrapParams.UserDataOptions.DisableUpdatesOnBoot ∧
    (MergeExtraSpecs m spec).BootstrapParams.UserDataOptions.ExtraPackages =
      m.BootstrapParams.UserDataOptions.ExtraPackages := by
  simp [mergeExtraSpecs_eq, withBootDebug]

/-! ## Witness environments -/

/-- A default oracle for witnesses: every call fails or returns nothing. -/
def emptyEnv : CloudEnv :=
  { controllerID := "cid",
    serverCreate := fun _ => .error (.mk "unreachable"),
    bfvCreate := fun _ => .error (.mk "unreachable"),
    serverGet := fun _ => .error (.mk "unreachable"),
    pollGet := fun _ _ => .error (.mk "unreachable"),
    serversList := fun _ => .ok [],
    forceDelete := fun _ => { statusCode := 200, extractErr := none },
    stopAct := fun _ => none,
    startAct := fun _ => none }

/-- Two servers sharing the display name `dup` plus one uniquely named
server, all tagged for controller `cid`. -/
def srvDupA : ServerWithExt :=
  { ID := "id-a", Name := "dup", Status := "ACTIVE",
    Tags := some ["garm-controller-id=cid"], Addresses := [], Metadata := [] }

def srvDupB : ServerWithExt :=
  { ID := "id-b", Name := "dup", Status := "ACTIVE",
    Tags := some ["garm-controller-id=cid"], Addresses := [], Metadata := [] }

def srvUniq : ServerWithExt :=
  { ID := "id-u", Name := "uniq", Status := "ACTIVE",
    Tags := some ["garm-controller-id=cid"], Addresses := [], Metadata := [] }

/-- Environment whose listing yields the three servers above. -/
def env8 : CloudEnv :=
  { emptyEnv with serversList := fun _ => .ok [srvDupA, srvDupB, srvUniq] }

/-! ## C8: single-server lookup multiplicity -/

theorem getServer_msgs_distinct (s : String) :
    ("failed to find server with name or id " ++ s) ≠
      ("multiple servers with name or id " ++ s ++ "; manual intervention required") := by
  intro h
  have hlen := congrArg String.length h
  rw [String.length_append, String.length_append, String.length_append] at hlen
  have h1 : ("failed to find server with name or id ").length = 38 := rfl
  have h2 : ("multiple servers with name or id ").length = 33 := rfl
  have h3 : ("; manual intervention required").length = 30 := rfl
  rw [h1, h2, h3] at hlen
  omega

/-- C8: `GetServer` fails with a not-found error on zero matches, with a
distinct manual-intervention error on more than one match, and returns
the unique record when exactly one server matches. -/
theorem getServer_multiplicity (env : CloudEnv) (s : String) :
    (ListServersWithNameOrID env s = .ok [] →
      GetServer env s =
        .error (.mk ("failed to find server with name or id " ++ s))) ∧
    (∀ l, ListServersWithNameOrID env s = .ok l → 1 < l.length →
      GetServer env s =
        .error (.mk ("multiple servers with name or id " ++ s ++
          "; manual intervention required"))) ∧
    (∀ srv, ListServersWithNameOrID env s = .ok [srv] → GetServer env s = .ok srv) ∧
    GErr.mk ("failed to find server with name or id " ++ s) ≠
      GErr.mk ("multiple servers with name or id " ++ s ++
        "; manual intervention required") := by
  refine ⟨?_, ?_, ?_, ?_⟩
  · intro h; simp [GetServer, h]
  · intro l h hl
    rcases l with _ | ⟨a, _ | ⟨b, rest⟩⟩
    · simp at hl
    · simp at hl
    · simp [GetServer, h]
  · intro srv h; simp [GetServer, h]
  · intro h
    exact getServer_msgs_distinct s (by injection h)

/-- Closed instantiation of `getServer_multiplicity`: two matches for
`dup`, zero for `missing`, exactly one for `uniq`. -/
theorem getServer_multiplicity_witness :
    GetServer env8 "dup" =
      .error (.mk ("multiple servers with name or id " ++ "dup" ++
        "; manual intervention required")) ∧
    GetServer env8 "missing" =
      .error (.mk ("failed to find server with name or id " ++ "missing")) ∧
    GetServer env8 "uniq" = .ok srvUniq :=
  ⟨(getServer_multiplicity env8 "dup").2.1 [srvDupA, srvDupB] rfl (by decide),
   (getServer_multiplicity env8 "missing").1 rfl,
   (getServer_multiplicity env8 "uniq").2.2.1 srvUniq rfl⟩

/-! ## C9: start / stop idempotency -/

/-- C9: `StopServer` succeeds without issuing the stop action when the
resolved server is already `SHUTOFF` and `StartServer` succeeds without
issuing the start action when it is already `ACTIVE`; otherwise the
corresponding action is issued, resolution failures are surfaced wrapped,
and action failures are wrapped with context. -/
theorem startStop_idempotent (env : CloudEnv) (s : String) :
    (∀ srv, GetServer env s = .ok srv → srv.Status = "SHUTOFF" →
      StopServer env s = (none, [])) ∧
    (∀ srv, GetServer env s = .ok srv → srv.Status ≠ "SHUTOFF" →
      (StopServer env s).2 = [Action.stopSrv srv.ID] ∧
      (env.stopAct srv.ID = none → (StopServer env s).1 = none) ∧
      (∀ e, env.stopAct srv.ID = some e →
        (StopServer env s).1 = some (.wrap "failed to stop server" e))) ∧
    (∀ e, GetServer env s = .error e →
      StopServer env s = (some (.wrap "failed to get server" e), [])) ∧
    (∀ srv, GetServer env s = .ok srv → srv.Status = "ACTIVE" →
      StartServer env s = (none, [])) ∧
    (∀ srv, GetServer env s = .ok srv → srv.Status ≠ "ACTIVE" →
      (StartServer env s).2 = [Action.startSrv srv.ID] ∧
      (env.startAct srv.ID = none → (StartServer env s).1 = none) ∧
      (∀ e, env.startAct srv.ID = some e →
        (StartServer env s).1 = some (.wrap "failed to stop server" e))) ∧
    (∀ e, GetServer env s = .error e →
      StartServer env s = (some (.wrap "failed to get server" e), [])) := by
  refine ⟨?_, ?_, ?_, ?_, ?_, ?_⟩
  · intro srv h hs; simp [StopServer, h, hs]
  · intro srv h hs
    refine ⟨?_, ?_, ?_⟩
    · rcases hact : env.stopAct srv.ID with _ | e <;> simp [StopServer, h, hs, hact]
    · intro hact; simp [StopServer, h, hs, hact]
    · intro e hact; simp [StopServer, h, hs, hact]
  · intro e h; simp [StopServer, h]
  · intro srv h hs; simp [StartServer, h, hs]
  · intro srv h hs
    refine ⟨?_, ?_, ?_⟩
    · rcases hact : env.startAct srv.ID with _ | e <;> simp [StartServer, h, hs, hact]
    · intro hact; simp [StartServer, h, hs, hact]
    · intro e hact; simp [StartServer, h, hs, hact]
  · intro e h; simp [StartServer, h]

/-- A shut-off server next to the running unique server. -/
def srvHalted : ServerWithExt :=
  { ID := "id-h", Name := "halted", Status := "SHUTOFF",
    Tags := some ["garm-controller-id=cid"], Addresses := [], Metadata := [] }

/-- Environment with one `SHUTOFF` and one `ACTIVE` server. -/
def env9 : CloudEnv :=
  { emptyEnv with serversList := fun _ => .ok [srvHalted, srvUniq] }

/-- Closed instantiation of `startStop_idempotent`: stopping a `SHUTOFF`
server and starting an `ACTIVE` one are no-ops, stopping an `ACTIVE` one
issues the action, and an unresolved name surfaces the lookup error. -/
theorem startStop_idempotent_witness :
    StopServer env9 "halted" = (none, []) ∧
    StartServer env9 "uniq" = (none, []) ∧
    (StopServer env9 "uniq").2 = [Action.stopSrv "id-u"] ∧
    StartServer env9 "missing" =
      (some (.wrap "failed to get server"
        (.mk ("failed to find server with name or id " ++ "missing"))), []) :=
  ⟨(startStop_idempotent env9 "halted").1 srvHalted rfl rfl,
   (startStop_idempotent env9 "uniq").2.2.2.1 srvUniq rfl rfl,
   ((startStop_idempotent env9 "uniq").2.1 srvUniq rfl (by decide)).1,
   (startStop_idempotent env9 "missing").2.2.2.2.2
     (.mk ("failed to find server with name or id " ++ "missing")) rfl⟩

/-! ## C3: delete idempotency and 404 as the delete-poll terminal state -/

/-- Shifting lemma for the bounded poll: if the first `d` polls starting
at attempt `t0` are still in progress and poll `t0 + d` reports a 404,
then waiting for `DELETED` succeeds (given enough fuel). -/
theorem waitForStatusAux_deleted_404 (env : CloudEnv) (id : String) :
    ∀ (d t0 fuel : Nat),
      (∀ i, i < d → ∃ srv, env.pollGet id (t0 + i) = .ok srv ∧
        srv.Status ≠ "DELETED" ∧ srv.Status ≠ "ERROR") →
      env.pollGet id (t0 + d) = .error GErr.default404 →
      d < fuel →
      waitForStatusAux env id "DELETED" t0 fuel = none := by
  intro d
  induction d with
  | zero =>
    intro t0 fuel hprog h404 hfuel
    cases fuel with
    | zero => omega
    | succ f =>
      unfold waitForStatusAux
      rw [show t0 + 0 = t0 from rfl] at h404
      rw [h404]
      simp
  | succ d ih =>
    intro t0 fuel hprog h404 hfuel
    cases fuel with
    | zero => omega
    | succ f =>
      unfold waitForStatusAux
      obtain ⟨srv, hok, hnd, hne⟩ := hprog 0 (by omega)
      rw [show t0 + 0 = t0 from rfl] at hok
      rw [hok]
      show (if srv.Status = "DELETED" then none
        else if srv.Status = "ERROR" then some (GErr.mk "instance in ERROR state")
        else waitForStatusAux env id "DELETED" (t0 + 1) f) = none
      rw [if_neg hnd, if_neg hne]
      apply ih
      · intro i hi
        have h := hprog (i + 1) (by omega)
        rwa [show t0 + (i + 1) = t0 + 1 + i from by omega] at h
      · rwa [show t0 + (d + 1) = t0 + 1 + d from by omega] at h404
      · omega

/-- C3: `DeleteServer` is idempotent — a 404 on the direct UUID lookup,
or an empty result of the name filter, yields success — and during the
post-delete disappearance poll a 404 while waiting for `DELETED` is the
success terminal state. -/
theorem deleteServer_idempotent (env : CloudEnv) (s : String) (w : Bool) :
    (isUUID s = true → env.serverGet s = .error GErr.default404 →
      DeleteServer env s w = none) ∧
    (ListServersWithNameOrID env s = .ok [] → DeleteServer env s w = none) ∧
    (∀ id secs t, t < secs →
      (∀ i, i < t → ∃ srv, env.pollGet id i = .ok srv ∧
        srv.Status ≠ "DELETED" ∧ srv.Status ≠ "ERROR") →
      env.pollGet id t = .error GErr.default404 →
      waitForStatus env id "DELETED" secs = none) := by
  refine ⟨?_, ?_, ?_⟩
  · intro hu hg
    simp [DeleteServer, ListServersWithNameOrID, hu, hg, gUnwrap]
  · intro h
    simp [DeleteServer, h, deleteServersLoop]
  · intro id secs t ht hprog h404
    exact waitForStatusAux_deleted_404 env id t 0 secs
      (by simpa using hprog) (by simpa using h404) ht

/-- Environment where every direct lookup and every poll reports 404. -/
def env3 : CloudEnv :=
  { emptyEnv with
    serverGet := fun _ => .error GErr.default404,
    pollGet := fun _ _ => .error GErr.default404 }

/-- Closed instantiation of `deleteServer_idempotent`: deleting a
404-reported UUID succeeds, deleting an unknown name succeeds, and the
delete poll treats an immediate 404 as success. -/
theorem deleteServer_idempotent_witness :
    DeleteServer env3 "11111111-2222-3333-4444-555555555555" true = none ∧
    DeleteServer env3 "gone" false = none ∧
    waitForStatus env3 "id-x" "DELETED" 120 = none :=
  ⟨(deleteServer_idempotent env3 "11111111-2222-3333-4444-555555555555" true).1
      (by decide) rfl,
   (deleteServer_idempotent env3 "gone" false).2.1 rfl,
   (deleteServer_idempotent env3 "id-x" false).2.2 "id-x" 120 0 (by omega)
      (by intro i hi; exact absurd hi (Nat.not_lt_zero i)) rfl⟩

/-! ## C1: compensating delete on create failure -/

/-- The error a failed create call reports: exactly the original failure
of the submission, of the status poll, or of the final re-fetch, with its
source-level context wrapping — never anything produced by the rollback. -/
def createOriginalError (env : CloudEnv) (submitted : Except GErr ServerWithExt)
    (e : GErr) : Prop :=
  (∃ e0, submitted = .error e0 ∧ e = .wrap "failed to create server" e0) ∨
  (∃ srv0 e0, submitted = .ok srv0 ∧
    waitForStatus env srv0.ID "ACTIVE" 120 = some e0 ∧
    e = .wrap "server did not reach ACTIVE state after 120 seconds" e0) ∨
  (∃ srv0, submitted = .ok srv0 ∧ waitForStatus env srv0.ID "ACTIVE" 120 = none ∧
    GetServer env srv0.ID = .error e)

theorem createBodyWith_error_spec (env : CloudEnv)
    (sub : Except GErr ServerWithExt) (e : GErr)
    (h : (createBodyWith env sub).2 = some e) : createOriginalError env sub e := by
  rcases hs : sub with e0 | srv0
  · left
    refine ⟨e0, rfl, ?_⟩
    rw [hs] at h
    simp [createBodyWith] at h
    exact h.symm
  · rw [hs] at h
    rcases hw : waitForStatus env srv0.ID "ACTIVE" 120 with _ | e1
    · rcases hg : GetServer env srv0.ID with e2 | srv1
      · right; right
        refine ⟨srv0, rfl, hw, ?_⟩
        simp [createBodyWith, hw, hg] at h
        rw [hg, h]
      · exfalso
        simp [createBodyWith, hw, hg] at h
    · right; left
      refine ⟨srv0, e1, rfl, hw, ?_⟩
      simp [createBodyWith, hw] at h
      exact h.symm

set_option maxRecDepth 4000 in
/-- C1: whenever `CreateServerFromImage` or `CreateServerFromVolume`
returns an error — submission failure, poll failure or timeout, or
re-fetch failure — the deferred cleanup attempts exactly one compensating
`DeleteServer`, targeting the returned server's ID when non-empty and the
requested name otherwise; the reported error is always the original
creation failure, and the result is independent of the delete (and
start/stop) oracles, so the rollback's own error is never propagated. -/
theorem createServer_rollback (env : CloudEnv) (opts : CreateOpts)
    (vopts : CreateOptsExt) (name : String) :
    ((CreateServerFromImage env opts).1.2 = none →
      (CreateServerFromImage env opts).2 = []) ∧
    (∀ e, (CreateServerFromImage env opts).1.2 = some e →
      (CreateServerFromImage env opts).2 =
        [Action.deleteSrv
          (if (CreateServerFromImage env opts).1.1.ID ≠ ""
           then (CreateServerFromImage env opts).1.1.ID else opts.Name) true] ∧
      createOriginalError env (env.serverCreate opts) e) ∧
    ((CreateServerFromVolume env vopts name).1.2 = none →
      (CreateServerFromVolume env vopts name).2 = []) ∧
    (∀ e, (CreateServerFromVolume env vopts name).1.2 = some e →
      (CreateServerFromVolume env vopts name).2 =
        [Action.deleteSrv
          (if (CreateServerFromVolume env vopts name).1.1.ID ≠ ""
           then (CreateServerFromVolume env vopts name).1.1.ID else name) true] ∧
      createOriginalError env (env.bfvCreate vopts) e) ∧
    (∀ fd st sa,
      CreateServerFromImage
        { env with forceDelete := fd, stopAct := st, startAct := sa } opts =
        CreateServerFromImage env opts ∧
      CreateServerFromVolume
        { env with forceDelete := fd, stopAct := st, startAct := sa } vopts name =
        CreateServerFromVolume env vopts name) := by
  refine ⟨?_, ?_, ?_, ?_, ?_⟩
  · intro h
    show createRollback (createFromImageBody env opts) opts.Name = []
    unfold createRollback
    rw [show (createFromImageBody env opts).2 = none from h]
  · intro e h
    refine ⟨?_, createBodyWith_error_spec env _ e h⟩
    show createRollback (createFromImageBody env opts) opts.Name = _
    unfold createRollback
    rw [show (createFromImageBody env opts).2 = some e from h]
    rfl
  · intro h
    show createRollback (createFromVolumeBody env vopts) name = []
    unfold createRollback
    rw [show (createFromVolumeBody env vopts).2 = none from h]
  · intro e h
    refine ⟨?_, createBodyWith_error_spec env _ e h⟩
    show createRollback (createFromVolumeBody env vopts) name = _
    unfold createRollback
    rw [show (createFromVolumeBody env vopts).2 = some e from h]
    rfl
  · intro fd st sa
    exact ⟨rfl, rfl⟩

/-- Environment whose submissions fail outright. -/
def env1 : CloudEnv :=
  { emptyEnv with
    serverCreate := fun _ => .error (.mk "boom"),
    bfvCreate := fun _ => .error (.mk "boom") }

/-- Create options for the rollback witness. -/
def wOpts : CreateOpts := { Name := "runner-w" }

def wVOpts : CreateOptsExt := { createOptsBuilder := wOpts }

/-- Closed instantiation of `createServer_rollback`: a failed submission
triggers a delete by the requested name and reports the wrapped original
error. -/
theorem createServer_rollback_witness :
    (CreateServerFromImage env1 wOpts).2 = [Action.deleteSrv "runner-w" true] ∧
    createOriginalError env1 (env1.serverCreate wOpts)
      (.wrap "failed to create server" (.mk "boom")) ∧
    (CreateServerFromVolume env1 wVOpts "runner-w").2 =
      [Action.deleteSrv "runner-w" true] := by
  have h := (createServer_rollback env1 wOpts wVOpts "runner-w").2.1
    (.wrap "failed to create server" (.mk "boom")) rfl
  have hv := (createServer_rollback env1 wOpts wVOpts "runner-w").2.2.2.1
    (.wrap "failed to create server" (.mk "boom")) rfl
  refine ⟨?_, h.2, ?_⟩
  · rw [h.1]; rfl
  · rw [hv.1]; rfl

/-! ## C2: name-or-ID resolution under the ownership scope -/

/-- The server carries a `garm-controller-id` tag whose value is `cid`. -/
def hasControllerTag (srv : ServerWithExt) (cid : String) : Prop :=
  ∃ tags, srv.Tags = some tags ∧ (controllerIDTagName ++ "=" ++ cid) ∈ tags

/-- If the extracted controller-ID value equals a non-empty `cid`, the
server really carries the tag `garm-controller-id=cid`. -/
theorem hasTag_of_valueOf (srv : ServerWithExt) (cid : String)
    (hne : cid ≠ "") (hval : controllerIDValueOf srv = cid) :
    hasControllerTag srv cid := by
  unfold controllerIDValueOf at hval
  rcases htags : srv.Tags with _ | tags
  · rw [htags] at hval
    exact absurd (show ("" : String) = cid from hval).symm hne
  · rw [htags] at hval
    have hval2 :
        (match tags.find? (fun tag => strStarts (controllerIDTagName ++ "=") tag) with
          | none => ""
          | some tag => tag.drop (controllerIDTagName ++ "=").length) = cid := hval
    rcases hfind : tags.find? (fun tag => strStarts (controllerIDTagName ++ "=") tag)
      with _ | tag
    · rw [hfind] at hval2
      exact absurd (show ("" : String) = cid from hval2).symm hne
    · rw [hfind] at hval2
      have hdropcid : tag.drop (controllerIDTagName ++ "=").length = cid := hval2
      have hmem : tag ∈ tags := List.mem_of_find?_eq_some hfind
      have hpred : strStarts (controllerIDTagName ++ "=") tag = true :=
        List.find?_some hfind
      have hpre : (controllerIDTagName ++ "=").data <+: tag.data := by
        simpa [strStarts, List.isPrefixOf_iff_prefix] using hpred
      obtain ⟨suf, hsuf⟩ := hpre
      have hdrop : (tag.drop (controllerIDTagName ++ "=").length).data = suf := by
        rw [String.data_drop, ← hsuf]
        exact List.drop_left' rfl
      have hsufcid : suf = cid.data := by rw [← hdrop, hdropcid]
      have htag : tag = controllerIDTagName ++ "=" ++ cid := by
        apply String.ext
        rw [String.data_append, ← hsuf, hsufcid]
      exact ⟨tags, htags, htag ▸ hmem⟩

/-- C2 (amended): for a UUID input the resolution is a direct point
lookup (independent of the listing oracle), whose failure is wrapped, and
— for a client with a non-empty controller ID — a returned server that
does not carry the matching `garm-controller-id` tag yields a not-found
error rather than the record; for a non-UUID input the resolution lists
the servers tagged `garm-controller-id=<controller ID>` (independent of
the point-lookup oracle) and returns exactly those whose name equals the
input. -/
theorem listServers_resolution (env : CloudEnv) (s : String) :
    (isUUID s = true → ∀ e, env.serverGet s = .error e →
      ListServersWithNameOrID env s = .error (.wrap "failed to get server" e)) ∧
    (isUUID s = true → env.controllerID ≠ "" →
      ∀ srv, env.serverGet s = .ok srv → ¬ hasControllerTag srv env.controllerID →
      ListServersWithNameOrID env s =
        .error (.mk ("server with name or ID " ++ s ++ " not found"))) ∧
    (isUUID s = true → ∀ sl,
      ListServersWithNameOrID { env with serversList := sl } s =
        ListServersWithNameOrID env s) ∧
    (isUUID s = false → ∀ l,
      env.serversList (controllerIDTagName ++ "=" ++ env.controllerID) = .ok l →
      ListServersWithNameOrID env s = .ok (l.filter (fun r => r.Name == s))) ∧
    (isUUID s = false → ∀ e,
      env.serversList (controllerIDTagName ++ "=" ++ env.controllerID) = .error e →
      ListServersWithNameOrID env s =
        .error (.wrap "failed to find server by name" (.wrap "failed to list servers" e))) ∧
    (isUUID s = false → ∀ sg,
      ListServersWithNameOrID { env with serverGet := sg } s =
        ListServersWithNameOrID env s) := by
  refine ⟨?_, ?_, ?_, ?_, ?_, ?_⟩
  · intro hu e hget
    simp [ListServersWithNameOrID, hu, hget]
  · intro hu hcid srv hget hnotag
    have hval : controllerIDValueOf srv ≠ env.controllerID := fun hv =>
      hnotag (hasTag_of_valueOf srv _ hcid hv)
    simp [ListServersWithNameOrID, hu, hget, hval]
  · intro hu sl
    simp only [ListServersWithNameOrID, hu]
    rfl
  · intro hu l hlist
    simp [ListServersWithNameOrID, hu, ListServersWithTags,
      show String.intercalate ","
        [controllerIDTagName ++ "=" ++ env.controllerID] =
        controllerIDTagName ++ "=" ++ env.controllerID from rfl, hlist]
  · intro hu e hlist
    simp [ListServersWithNameOrID, hu, ListServersWithTags,
      show String.intercalate ","
        [controllerIDTagName ++ "=" ++ env.controllerID] =
        controllerIDTagName ++ "=" ++ env.controllerID from rfl, hlist]
  · intro hu sg
    simp only [ListServersWithNameOrID, hu]
    rfl

/-- A server carrying no tags at all, with a UUID identifier. -/
def srvUntagged : ServerWithExt :=
  { ID := "33333333-3333-3333-3333-333333333333", Name := "runner-x",
    Status := "ACTIVE", Tags := none, Addresses := [], Metadata := [] }

/-- A client constructed with an empty controller ID whose point lookup
returns the untagged server. -/
def env2 : CloudEnv :=
  { emptyEnv with controllerID := "", serverGet := fun _ => .ok srvUntagged }

/-- C2 counterexample: with an empty controller ID, a canonical-UUID
lookup returns a server that carries no `garm-controller-id` tag at all —
the record is handed back instead of the claimed not-found error, because
the code compares the extracted tag value (empty when the tag is absent)
with the controller ID. -/
theorem listServers_scope_counterexample :
    isCanonicalUUID "33333333-3333-3333-3333-333333333333" = true ∧
    env2.controllerID = "" ∧
    ¬ hasControllerTag srvUntagged env2.controllerID ∧
    ListServersWithNameOrID env2 "33333333-3333-3333-3333-333333333333" =
      .ok [srvUntagged] ∧
    ListServersWithNameOrID env2 "33333333-3333-3333-3333-333333333333" ≠
      .error (.mk ("server with name or ID " ++
        "33333333-3333-3333-3333-333333333333" ++ " not found")) := by
  refine ⟨by decide, rfl, ?_, rfl, ?_⟩
  · rintro ⟨tags, htags, -⟩
    rw [show srvUntagged.Tags = none from rfl] at htags
    exact Option.noConfusion htags
  · intro hcon
    rw [show ListServersWithNameOrID env2 "33333333-3333-3333-3333-333333333333" =
      Except.ok [srvUntagged] from rfl] at hcon
    exact Except.noConfusion hcon

/-- Closed instantiation of `listServers_resolution` discharging its
hypotheses: a 404 on a UUID lookup is wrapped, an owned-tag mismatch
under controller `cid` is not-found, and a plain name is resolved by the
tag listing and name filter. -/
theorem listServers_resolution_witness :
    ListServersWithNameOrID env3 "11111111-2222-3333-4444-555555555555" =
      .error (.wrap "failed to get server" GErr.default404) ∧
    ListServersWithNameOrID
      { env2 with controllerID := "cid" } "33333333-3333-3333-3333-333333333333" =
      .error (.mk ("server with name or ID " ++
        "33333333-3333-3333-3333-333333333333" ++ " not found")) ∧
    ListServersWithNameOrID env8 "dup" = .ok [srvDupA, srvDupB] := by
  refine ⟨?_, ?_, ?_⟩
  · exact (listServers_resolution env3 "11111111-2222-3333-4444-555555555555").1
      (by decide) GErr.default404 rfl
  · refine (listServers_resolution _ "33333333-3333-3333-3333-333333333333").2.1
      (by decide) (by decide) srvUntagged rfl ?_
    rintro ⟨tags, htags, -⟩
    rw [show srvUntagged.Tags = none from rfl] at htags
    exact Option.noConfusion htags
  · have h := (listServers_resolution env8 "dup").2.2.2.1 (by decide)
      [srvDupA, srvDupB, srvUniq] rfl
    rw [h]
    rfl

/-! ## C7: server-to-instance mapping -/

/-- An abstract address record `a` is justified by a raw address entry:
the entry is an object whose `addr` is the string `a.address` and whose
`OS-EXT-IPS:type` is `fixed` (kind private) or `floating` (kind public). -/
def entryYields (entry : GoVal) (a : Address) : Prop :=
  ∃ fields, entry = .obj fields ∧
    goLookup fields "addr" = some (.str a.address) ∧
    ((goLookup fields "OS-EXT-IPS:type" = some (.str "fixed") ∧
        a.addrType = "private") ∨
     (goLookup fields "OS-EXT-IPS:type" = some (.str "floating") ∧
        a.addrType = "public"))

/-- Reduction of `extractAddr` on an object entry, with the binder-free
right-hand side used by the extraction lemmas. -/
theorem extractAddr_obj (fields : List (String × GoVal)) :
    extractAddr (GoVal.obj fields) =
      (if goIsNil (goLookup fields "OS-EXT-IPS:type") ||
          goIsNil (goLookup fields "addr") then none
       else
         match goLookup fields "addr", goLookup fields "OS-EXT-IPS:type" with
         | some (GoVal.str addrAsStr), some (GoVal.str addrTypeAsStr) =>
           if addrTypeAsStr ≠ "fixed" ∧ addrTypeAsStr ≠ "floating" then none
           else some (⟨addrAsStr, addrTypeMapGet addrTypeAsStr⟩ : Address)
         | _, _ => none) := rfl

theorem extractAddr_some_spec (entry : GoVal) (a : Address)
    (h : extractAddr entry = some a) : entryYields entry a := by
  cases entry with
  | null => exact absurd h (by simp [extractAddr])
  | str s => exact absurd h (by simp [extractAddr])
  | list xs => exact absurd h (by simp [extractAddr])
  | other => exact absurd h (by simp [extractAddr])
  | obj fields =>
    rw [extractAddr_obj] at h
    rcases ha : goLookup fields "addr" with _ | av <;> rw [ha] at h
    · exact absurd h (by simp [goIsNil])
    · rcases ht : goLookup fields "OS-EXT-IPS:type" with _ | tv <;> rw [ht] at h
      · exact absurd h (by simp [goIsNil])
      · refine ⟨fields, rfl, ?_⟩
        cases av <;> cases tv
        case str.str aStr tStr =>
          have h' : (if tStr ≠ "fixed" ∧ tStr ≠ "floating" then none
              else some (⟨aStr, addrTypeMapGet tStr⟩ : Address)) = some a := h
          by_cases h1 : tStr = "fixed"
          · rw [if_neg (fun hc => hc.1 h1)] at h'
            injection h' with h2
            refine ⟨by rw [← h2]; exact ha, Or.inl ⟨h1 ▸ ht, ?_⟩⟩
            rw [← h2, h1]
            rfl
          · by_cases hf : tStr = "floating"
            · rw [if_neg (fun hc => hc.2 hf)] at h'
              injection h' with h2
              refine ⟨by rw [← h2]; exact ha, Or.inr ⟨hf ▸ ht, ?_⟩⟩
              rw [← h2, hf]
              rfl
            · rw [if_pos ⟨h1, hf⟩] at h'
              exact absurd h' (by simp)
        all_goals exact absurd h (by simp [goIsNil])

theorem extractAddr_of_yields (entry : GoVal) (a : Address)
    (h : entryYields entry a) : extractAddr entry = some a := by
  obtain ⟨fields, rfl, ha, hty⟩ := h
  rcases hty with ⟨ht, hk⟩ | ⟨ht, hk⟩
  · rw [extractAddr_obj, ha, ht]
    show some (⟨a.address, "private"⟩ : Address) = some a
    rw [← hk]
  · rw [extractAddr_obj, ha, ht]
    show some (⟨a.address, "public"⟩ : Address) = some a
    rw [← hk]

theorem mem_collectAddresses {m : List (String × GoVal)} {a : Address} :
    a ∈ collectAddresses m ↔
      ∃ p, p ∈ m ∧ ∃ xs, p.2 = GoVal.list xs ∧ ∃ entry, entry ∈ xs ∧
        extractAddr entry = some a := by
  unfold collectAddresses
  rw [List.mem_flatMap]
  constructor
  · rintro ⟨p, hp, hmem⟩
    refine ⟨p, hp, ?_⟩
    unfold networkAddrs at hmem
    rcases hv : p.2 with _ | s | xs | flds | _ <;> rw [hv] at hmem
    · exact absurd hmem (List.not_mem_nil a)
    · exact absurd hmem (List.not_mem_nil a)
    · have hmem' : a ∈ xs.filterMap extractAddr := hmem
      rw [List.mem_filterMap] at hmem'
      obtain ⟨entry, hin, hex⟩ := hmem'
      exact ⟨xs, rfl, entry, hin, hex⟩
    · exact absurd hmem (List.not_mem_nil a)
    · exact absurd hmem (List.not_mem_nil a)
  · rintro ⟨p, hp, xs, hxs, entry, hin, hex⟩
    refine ⟨p, hp, ?_⟩
    unfold networkAddrs
    rw [hxs]
    exact List.mem_filterMap.mpr ⟨entry, hin, hex⟩

/-- The C7 scenario input: status `BUILD`, no address list. -/
def srvBuild : ServerWithExt :=
  { ID := "b1", Name := "runner-b", Status := "BUILD", Tags := none,
    Addresses := [], Metadata := [] }

/-- C7: `openstackServerToInstance` maps the remote status by the fixed
five-entry table with every other status mapping to the empty string;
every address it keeps stems from an entry explicitly typed `fixed`
(mapped private) or `floating` (mapped public), and every such well-typed
entry is kept; and a `BUILD` server without addresses maps to a
pending-create instance with zero addresses. -/
theorem serverToInstance_spec :
    (∀ srv : ServerWithExt, srv.Status = "ACTIVE" →
      (openstackServerToInstance srv).Status = "running") ∧
    (∀ srv : ServerWithExt, srv.Status = "SHUTOFF" →
      (openstackServerToInstance srv).Status = "stopped") ∧
    (∀ srv : ServerWithExt, srv.Status = "BUILD" →
      (openstackServerToInstance srv).Status = "pending_create") ∧
    (∀ srv : ServerWithExt, srv.Status = "ERROR" →
      (openstackServerToInstance srv).Status = "error") ∧
    (∀ srv : ServerWithExt, srv.Status = "DELETING" →
      (openstackServerToInstance srv).Status = "pending_delete") ∧
    (∀ srv : ServerWithExt,
      srv.Status ∉ ["ACTIVE", "SHUTOFF", "BUILD", "ERROR", "DELETING"] →
      (openstackServerToInstance srv).Status = "") ∧
    (∀ (srv : ServerWithExt) (a : Address),
      a ∈ (openstackServerToInstance srv).Addresses →
      (a.addrType = "private" ∨ a.addrType = "public") ∧
      ∃ p, p ∈ srv.Addresses ∧ ∃ xs, p.2 = GoVal.list xs ∧
        ∃ entry, entry ∈ xs ∧ entryYields entry a) ∧
    (∀ (srv : ServerWithExt) (p : String × GoVal) (xs : List GoVal)
        (entry : GoVal) (a : Address),
      p ∈ srv.Addresses → p.2 = GoVal.list xs → entry ∈ xs → entryYields entry a →
      a ∈ (openstackServerToInstance srv).Addresses) ∧
    openstackServerToInstance srvBuild =
      { ProviderID := "b1", Name := "runner-b", OSArch := "", OSType := "",
        Status := "pending_create", OSName := "", OSVersion := "",
        Addresses := [] } := by
  refine ⟨?_, ?_, ?_, ?_, ?_, ?_, ?_, ?_, ?_⟩
  · intro srv h; simp [openstackServerToInstance, statusMapGet, h]
  · intro srv h; simp [openstackServerToInstance, statusMapGet, h]
  · intro srv h; simp [openstackServerToInstance, statusMapGet, h]
  · intro srv h; simp [openstackServerToInstance, statusMapGet, h]
  · intro srv h; simp [openstackServerToInstance, statusMapGet, h]
  · intro srv h
    simp only [List.mem_cons, List.mem_singleton, not_or] at h
    obtain ⟨h1, h2, h3, h4, h5⟩ := h
    simp [openstackServerToInstance, statusMapGet, h1, h2, h3, h4, h5]
  · intro srv a ha
    have ha' : a ∈ collectAddresses srv.Addresses := ha
    rw [mem_collectAddresses] at ha'
    obtain ⟨p, hp, xs, hxs, entry, hin, hex⟩ := ha'
    have hy := extractAddr_some_spec entry a hex
    constructor
    · obtain ⟨fields, -, -, hty⟩ := hy
      rcases hty with ⟨-, hk⟩ | ⟨-, hk⟩
      · exact Or.inl hk
      · exact Or.inr hk
    · exact ⟨p, hp, xs, hxs, entry, hin, hy⟩
  · intro srv p xs entry a hp hxs hin hy
    show a ∈ collectAddresses srv.Addresses
    rw [mem_collectAddresses]
    exact ⟨p, hp, xs, hxs, entry, hin, extractAddr_of_yields entry a hy⟩
  · rfl

/-- A server with an unlisted status. -/
def srvPaused : ServerWithExt :=
  { ID := "p1", Name := "runner-p", Status := "PAUSED", Tags := none,
    Addresses := [], Metadata := [] }

/-- The raw fields of a well-typed fixed address entry. -/
def addrEntryFields : List (String × GoVal) :=
  [("addr", GoVal.str "10.0.0.4"), ("OS-EXT-IPS:type", GoVal.str "fixed")]

/-- A server exposing exactly one fixed address on one network. -/
def srvAddr : ServerWithExt :=
  { ID := "a1", Name := "runner-a", Status := "ACTIVE", Tags := none,
    Addresses := [("net", GoVal.list [GoVal.obj addrEntryFields])],
    Metadata := [] }

/-- Closed instantiation of `serverToInstance_spec`: the `BUILD` scenario,
an unlisted status mapping to the empty string, and a fixed-typed entry
surfacing as a private address. -/
theorem serverToInstance_spec_witness :
    (openstackServerToInstance srvBuild).Status = "pending_create" ∧
    (openstackServerToInstance srvPaused).Status = "" ∧
    Address.mk "10.0.0.4" "private" ∈ (openstackServerToInstance srvAddr).Addresses ∧
    ((Address.mk "10.0.0.4" "private").addrType = "private" ∨
      (Address.mk "10.0.0.4" "private").addrType = "public") := by
  have hmem := serverToInstance_spec.2.2.2.2.2.2.2.1 srvAddr
    ("net", GoVal.list [GoVal.obj addrEntryFields]) [GoVal.obj addrEntryFields]
    (GoVal.obj addrEntryFields) (Address.mk "10.0.0.4" "private")
    (List.mem_singleton.mpr rfl) rfl (List.mem_singleton.mpr rfl)
    ⟨addrEntryFields, rfl, rfl, Or.inl ⟨rfl, rfl⟩⟩
  exact ⟨serverToInstance_spec.2.2.1 srvBuild rfl,
    serverToInstance_spec.2.2.2.2.2.1 srvPaused (by decide),
    hmem,
    (serverToInstance_spec.2.2.2.2.2.2.1 srvAddr
      (Address.mk "10.0.0.4" "private") hmem).1⟩

end GarmOS
